import Mathlib

/-!
# Verification of the VLM router / response normalizer and the body-region gate

Shallow embedding of the core logic of the multimodal medical diagnosis
repository:

* `GroqVLMRouter._normalize_vlm_response` (src/app/core/groq_vlm_router.py,
  lines 558-713) as `pyNormalize`,
* the provider fallback loop of `GroqVLMRouter.analyze_medical_image`
  (lines 337-556) as `analyzeLoop` / `successBody`,
* `BodyRegionDetector.detect_body_region` / `validate_region_match`
  (src/app/core/body_region_detector.py) as `detectFromFeatures`,
  `detectBodyRegion` and `validateRegionMatch`.

Python values are embedded as `PyVal`: numbers (`int`/`float`) are modelled
as rationals (Python's `==` identifies `1` and `1.0`, so the merge is
faithful for all comparisons the code performs), strings as `String`,
`None` as `PyVal.none`, JSON objects as association lists (Python dicts
have unique keys; lookup takes the first match).  Code that can raise a
`TypeError`/`AttributeError`/`ValueError` is modelled in the `Option`
(or `Except String`) monad, with `none`/`throw` at exactly the operations
that raise in CPython.
-/

set_option maxHeartbeats 1000000

/-- Embedded Python value (the subset of Python data the router manipulates). -/
inductive PyVal where
  | none : PyVal
  | bool : Bool → PyVal
  | num : ℚ → PyVal
  | str : String → PyVal
  | list : List PyVal → PyVal
  | dict : List (String × PyVal) → PyVal

/-- Python truthiness: `None`, `False`, `0`, `""`, `[]`, `{}` are falsy. -/
def truthy : PyVal → Bool
  | .none => false
  | .bool b => b
  | .num q => q != 0
  | .str s => s != ""
  | .list xs => !xs.isEmpty
  | .dict kvs => !kvs.isEmpty

/-- `d.get(k)` on a dict: value when the key is present, `None` otherwise. -/
def pyGet (d : PyVal) (k : String) : PyVal :=
  match d with
  | .dict kvs => ((kvs.lookup k).getD .none)
  | _ => .none

/-- `d.get(k, default)`: the default applies only when the key is missing. -/
def pyGetD (d : PyVal) (k : String) (v : PyVal) : PyVal :=
  match d with
  | .dict kvs => ((kvs.lookup k).getD v)
  | _ => v

/-- Raw lookup (present or not), used for `d.get("model", d.get("model_used"))`. -/
def pyLookup (d : PyVal) (k : String) : Option PyVal :=
  match d with
  | .dict kvs => kvs.lookup k
  | _ => Option.none

/-- Python `a or b`: the first operand when truthy, otherwise the second. -/
def pyOr (a b : PyVal) : PyVal := if truthy a then a else b

/-- `isinstance(v, (int, float))`; Python's `bool` is a subclass of `int`. -/
def isNum : PyVal → Bool
  | .bool _ => true
  | .num _ => true
  | _ => false

/-- Numeric value of an embedded number (`True == 1`, `False == 0`). -/
def numVal : PyVal → ℚ
  | .bool b => if b then 1 else 0
  | .num q => q
  | _ => 0

/-- Is the value a dict? (`isinstance(v, dict)`). -/
def isDict : PyVal → Bool
  | .dict _ => true
  | _ => false

/-- String payload of a `str` value; `none` models the `TypeError` /
`AttributeError` raised when a string method is called on a non-string. -/
def asStr : PyVal → Option String
  | .str s => some s
  | _ => Option.none

/-- Python `v == s` for a string literal `s`: only equal strings compare
equal (no cross-type equality between `str` and other types). -/
def pyEqStr (v : PyVal) (s : String) : Bool :=
  match v with
  | .str t => t == s
  | _ => false

/-- Values that support slicing (`v[:n]`): strings and lists. -/
def sliceOk : PyVal → Bool
  | .str _ => true
  | .list _ => true
  | _ => false

/-- Values that support `len(v)`: strings, lists and dicts. -/
def pyLenOk : PyVal → Bool
  | .str _ => true
  | .list _ => true
  | .dict _ => true
  | _ => false

/-! ### Kernel-computable rational arithmetic

The `Rat` operations `*`, `+`, `-` coming from Batteries are marked
irreducible, so evaluation in proofs (`decide`/`rfl`) gets stuck on them.
The embedding therefore uses its own definitionally-computable versions,
shown equal to the standard operations. -/

def qMul (a b : ℚ) : ℚ := mkRat (a.num * b.num) (a.den * b.den)

def qAdd (a b : ℚ) : ℚ := mkRat (a.num * b.den + b.num * a.den) (a.den * b.den)

def qSub (a b : ℚ) : ℚ := mkRat (a.num * b.den - b.num * a.den) (a.den * b.den)

def intToRat (n : ℤ) : ℚ := mkRat n 1

theorem qMul_eq (a b : ℚ) : qMul a b = a * b := by
  rw [qMul, Rat.mkRat_eq_div]
  push_cast
  conv_rhs => rw [← Rat.num_div_den a, ← Rat.num_div_den b]
  rw [div_mul_div_comm]

theorem qAdd_eq (a b : ℚ) : qAdd a b = a + b := by
  rw [qAdd, Rat.mkRat_eq_div]
  push_cast
  conv_rhs => rw [← Rat.num_div_den a, ← Rat.num_div_den b]
  rw [div_add_div _ _ (by positivity) (by positivity)]
  ring_nf

theorem qSub_eq (a b : ℚ) : qSub a b = a - b := by
  rw [qSub, Rat.mkRat_eq_div]
  push_cast
  conv_rhs => rw [← Rat.num_div_den a, ← Rat.num_div_den b]
  rw [div_sub_div _ _ (by positivity) (by positivity)]
  ring_nf

theorem intToRat_eq (n : ℤ) : intToRat n = (n : ℚ) := by
  rw [intToRat, Rat.mkRat_eq_div]
  simp

/-- Computable floor of a rational (`Int.ediv` floors for a positive
denominator; equals `q.num / q.den` with integer floor division). -/
def ratFloor (q : ℚ) : ℤ := q.num / (q.den : ℤ)

theorem ratFloor_eq_floor (q : ℚ) : ratFloor q = ⌊q⌋ := (Rat.floor_def).symm

/-- Python's `round` to an integer: round-half-to-even (banker's rounding). -/
def pyRound (q : ℚ) : ℤ :=
  if qSub q (intToRat (ratFloor q)) < mkRat 1 2 then ratFloor q
  else if mkRat 1 2 < qSub q (intToRat (ratFloor q)) then ratFloor q + 1
  else if ratFloor q % 2 = 0 then ratFloor q else ratFloor q + 1

theorem pyRound_spec (q : ℚ) :
    pyRound q = ⌊q⌋ ∨ (pyRound q = ⌊q⌋ + 1 ∧ (⌊q⌋ : ℚ) < q) := by
  unfold pyRound
  rw [ratFloor_eq_floor, qSub_eq, intToRat_eq, Rat.mkRat_eq_div]
  split
  · exact Or.inl rfl
  · rename_i h1
    push_neg at h1
    have hlt : (⌊q⌋ : ℚ) < q := by
      rcases lt_or_eq_of_le (Int.floor_le q) with h2 | h2
      · exact h2
      · exfalso
        rw [← h2] at h1
        norm_num at h1
    split
    · exact Or.inr ⟨rfl, hlt⟩
    · split
      · exact Or.inl rfl
      · exact Or.inr ⟨rfl, hlt⟩

theorem pyRound_intCast (n : ℤ) : pyRound (n : ℚ) = n := by
  rcases pyRound_spec (n : ℚ) with h | ⟨_, h2⟩
  · rwa [Int.floor_intCast] at h
  · rw [Int.floor_intCast] at h2
    exact absurd h2 (lt_irrefl _)

theorem pyRound_nonneg {q : ℚ} (h : 0 ≤ q) : 0 ≤ pyRound q := by
  have hf : (0:ℤ) ≤ ⌊q⌋ := Int.floor_nonneg.mpr h
  rcases pyRound_spec q with h1 | ⟨h1, _⟩ <;> omega

theorem pyRound_le {q : ℚ} {B : ℤ} (h : q ≤ B) : pyRound q ≤ B := by
  have hf : ⌊q⌋ ≤ B := by
    have := Int.floor_le_floor (α := ℚ) h
    rwa [Int.floor_intCast] at this
  rcases pyRound_spec q with h1 | ⟨h1, h2⟩
  · omega
  · have hQ : ⌊q⌋ < B := by
      by_contra hc
      push_neg at hc
      have : (B:ℚ) ≤ (⌊q⌋:ℚ) := by exact_mod_cast hc
      linarith
    omega

example : pyRound (mkRat 5 2) = 2 := by decide
example : pyRound (mkRat 7 2) = 4 := by decide
example : pyRound (mkRat 1 2) = 0 := by decide
example : pyRound (mkRat (-1) 2) = 0 := by decide
example : pyRound (mkRat 13 10) = 1 := by decide
example : pyRound (qMul (mkRat 92 100) 100) = 92 := by decide

/-! ### Python string operations (ASCII, as used by the router) -/

theorem toNat_ofNat_valid {n : ℕ} (h : n < 55296) : (Char.ofNat n).toNat = n := by
  rw [Char.ofNat, dif_pos]
  · rfl
  · exact Or.inl h

/-- ASCII case-lowering of one character (`str.lower`). -/
def lowerChar (c : Char) : Char :=
  if 65 ≤ c.toNat ∧ c.toNat ≤ 90 then Char.ofNat (c.toNat + 32) else c

/-- ASCII case-raising of one character (`str.upper`). -/
def upperChar (c : Char) : Char :=
  if 97 ≤ c.toNat ∧ c.toNat ≤ 122 then Char.ofNat (c.toNat - 32) else c

def pyLower (s : String) : String := ⟨s.data.map lowerChar⟩

def pyUpper (s : String) : String := ⟨s.data.map upperChar⟩

theorem lowerChar_idem (c : Char) : lowerChar (lowerChar c) = lowerChar c := by
  unfold lowerChar
  by_cases h : 65 ≤ c.toNat ∧ c.toNat ≤ 90
  · rw [if_pos h]
    have ht : (Char.ofNat (c.toNat + 32)).toNat = c.toNat + 32 :=
      toNat_ofNat_valid (by omega)
    rw [if_neg]
    rw [ht]
    omega
  · rw [if_neg h, if_neg h]

theorem upperChar_idem (c : Char) : upperChar (upperChar c) = upperChar c := by
  unfold upperChar
  by_cases h : 97 ≤ c.toNat ∧ c.toNat ≤ 122
  · rw [if_pos h]
    have ht : (Char.ofNat (c.toNat - 32)).toNat = c.toNat - 32 :=
      toNat_ofNat_valid (by omega)
    rw [if_neg]
    rw [ht]
    omega
  · rw [if_neg h, if_neg h]

theorem pyLower_idem (s : String) : pyLower (pyLower s) = pyLower s := by
  unfold pyLower
  have h : lowerChar ∘ lowerChar = lowerChar := funext lowerChar_idem
  simp only [List.map_map, h]

theorem pyUpper_idem (s : String) : pyUpper (pyUpper s) = pyUpper s := by
  unfold pyUpper
  have h : upperChar ∘ upperChar = upperChar := funext upperChar_idem
  simp only [List.map_map, h]

theorem str_length_zero {s : String} (h : s.length = 0) : s = "" := by
  cases s with
  | _ d =>
    have hd : d = [] := List.length_eq_zero.mp h
    rw [hd]

theorem pyUpper_length (s : String) : (pyUpper s).length = s.length :=
  List.length_map _ _

theorem pyUpper_ne_empty {s : String} (h : s ≠ "") : pyUpper s ≠ "" := by
  intro hc
  apply h
  apply str_length_zero
  have hl := pyUpper_length s
  rw [hc] at hl
  exact hl.symm

/-- ASCII alphabetic test (`str.isalpha` restricted to ASCII). -/
def isAlphaAscii (c : Char) : Bool :=
  decide ((65 ≤ c.toNat ∧ c.toNat ≤ 90) ∨ (97 ≤ c.toNat ∧ c.toNat ≤ 122))

/-- Python `str.title`: first alphabetic character of each word upper-cased,
subsequent alphabetic characters lower-cased. -/
def titleAux : Bool → List Char → List Char
  | _, [] => []
  | prev, c :: cs =>
    (if isAlphaAscii c then (if prev then lowerChar c else upperChar c) else c)
      :: titleAux (isAlphaAscii c) cs

def pyTitle (s : String) : String := ⟨titleAux false s.data⟩

/-- Python `"sep".join(parts)`. -/
def joinSep (sep : String) : List String → String
  | [] => ""
  | [s] => s
  | s :: rest => s ++ sep ++ joinSep sep rest

theorem joinSep_ne_empty {sep s : String} (h : s ≠ "") (l : List String) :
    joinSep sep (s :: l) ≠ "" := by
  intro hc
  apply h
  cases l with
  | nil =>
    rw [show joinSep sep [s] = s from rfl] at hc
    exact hc
  | cons t ts =>
    rw [show joinSep sep (s :: t :: ts) = s ++ sep ++ joinSep sep (t :: ts) from rfl] at hc
    have hl := congrArg String.length hc
    rw [String.length_append, String.length_append] at hl
    apply str_length_zero
    have : String.length "" = 0 := rfl
    omega

/-! ### Rendering of values in f-strings (Python `str()`) -/

/-- One decimal digit as a string. -/
def digitStr (n : ℕ) : String := String.singleton (Char.ofNat (48 + n % 10))

/-- Decimal digits of a natural number (fuel-bounded division loop). -/
def natDigits : ℕ → ℕ → String
  | 0, _ => ""
  | fuel + 1, n => if n < 10 then digitStr n else natDigits fuel (n / 10) ++ digitStr n

def natRepr (n : ℕ) : String := natDigits 40 n

/-- Python rendering of an `int`. -/
def intRepr (i : ℤ) : String :=
  if i < 0 then "-" ++ natRepr i.natAbs else natRepr i.natAbs

/-- Python rendering of a number: integral values render like `int`s,
other values with a decimal expansion (floats are dyadic, so the
expansion terminates; fuel bounds the digit loop). -/
def fracDigits : ℕ → ℕ → ℕ → String
  | 0, _, _ => ""
  | _, 0, _ => ""
  | fuel + 1, n, d => digitStr (n * 10 / d) ++ fracDigits fuel (n * 10 % d) d

def ratStr (q : ℚ) : String :=
  if q.den = 1 then intRepr q.num
  else
    (if q.num < 0 then "-" else "") ++ natRepr (q.num.natAbs / q.den) ++ "." ++
      fracDigits 1200 (q.num.natAbs % q.den) q.den

/- Python `str(v)` (`repr` for elements of containers).  Only the scalar
cases are exercised by the router's f-strings in the verified properties;
container rendering is included for totality. -/
mutual

def pyStr : PyVal → String
  | .none => "None"
  | .bool true => "True"
  | .bool false => "False"
  | .num q => ratStr q
  | .str s => s
  | .list xs => "[" ++ pyReprList xs ++ "]"
  | .dict kvs => "\x7b" ++ pyReprDict kvs ++ "\x7d"

def pyRepr : PyVal → String
  | .none => "None"
  | .bool true => "True"
  | .bool false => "False"
  | .num q => ratStr q
  | .str s => "\x27" ++ s ++ "\x27"
  | .list xs => "[" ++ pyReprList xs ++ "]"
  | .dict kvs => "\x7b" ++ pyReprDict kvs ++ "\x7d"

def pyReprList : List PyVal → String
  | [] => ""
  | [v] => pyRepr v
  | v :: vs => pyRepr v ++ ", " ++ pyReprList vs

def pyReprDict : List (String × PyVal) → String
  | [] => ""
  | [(k, v)] => "\x27" ++ k ++ "\x27: " ++ pyRepr v
  | (k, v) :: kvs => "\x27" ++ k ++ "\x27: " ++ pyRepr v ++ ", " ++ pyReprDict kvs

end

/-! ### The response normalizer (`GroqVLMRouter._normalize_vlm_response`) -/

/-- Confidence scaling rule (groq_vlm_router.py lines 598 and 621):
`max(0, min(100, round(c * 100))) if c <= 1 else round(c)`. -/
def normConfidence (c : ℚ) : ℤ :=
  if c ≤ 1 then max 0 (min 100 (pyRound (qMul c 100))) else pyRound c

/-- Normalized overall confidence (lines 596-600): numeric values are scaled
by `normConfidence`, anything else defaults to `0`. -/
def confScoreOf (raw : PyVal) : ℤ :=
  if isNum (pyGet raw "confidence_score") then
    normConfidence (numVal (pyGet raw "confidence_score"))
  else 0

/-- Normalized per-finding confidence (lines 619-623): numeric values are
scaled by `normConfidence`, anything else defaults to `50`. -/
def findingConfPct (f : PyVal) : ℤ :=
  if isNum (pyGet f "confidence") then
    normConfidence (numVal (pyGet f "confidence"))
  else 50

/-- Normalization of one finding dict (lines 614-641).  `none` models the
`TypeError`/`AttributeError` raised when `severity.lower()` or
`status.title()` is applied to a non-string. -/
def normFindingStep (f : PyVal) : Option PyVal :=
  let term := pyGetD f "term" (.str "Pulmonary Finding")
  let status := pyGetD f "status" (.str "uncertain")
  match asStr (pyGetD f "severity" (.str "none")) with
  | Option.none => Option.none
  | some sevRaw =>
    let sv := pyLower sevRaw
    let severity :=
      if pyEqStr status "absent" && (sv == "none" || sv == "normal") then "normal" else sv
    let rad := pyOr (pyGet f "radiology_summary") (.str "No radiology summary provided.")
    let plain := pyOr (pyGet f "plain_language_summary") (.str "No patient explanation provided.")
    match asStr status with
    | Option.none => Option.none
    | some statusS =>
      let details := [plain, .str ("Status: " ++ pyTitle statusS)].filter (fun x => truthy x)
      some (.dict [("term", term), ("status", status), ("category", .str "LUNGS"),
        ("title", term), ("severity", .str severity),
        ("confidence", .num (intToRat (findingConfPct f))),
        ("radiology_summary", rad), ("plain_language_summary", plain),
        ("description", rad), ("details", .list details)])

/-- The finding loop (lines 610-641): non-dict entries are skipped. -/
def normFindings : List PyVal → Option (List PyVal)
  | [] => some []
  | f :: fs =>
    if isDict f then
      match normFindingStep f with
      | Option.none => Option.none
      | some f1 =>
        match normFindings fs with
        | Option.none => Option.none
        | some rest => some (f1 :: rest)
    else normFindings fs

/-- Normalization of one dict recommendation (lines 658-665). -/
def normRecStep (r : PyVal) : Option PyVal :=
  match asStr (pyOr (pyGet r "urgency") (pyOr (pyGet r "priority") (.str "routine"))) with
  | Option.none => Option.none
  | some pr =>
    some (.dict [
      ("priority", .str (pyUpper pr)),
      ("category", pyOr (pyGet r "category") (pyOr (pyGet r "action") (.str "Recommendation"))),
      ("text", pyOr (pyGet r "rationale") (pyOr (pyGet r "text")
        (pyOr (pyGet r "action") (.str "No recommendation details provided.")))),
      ("timeline", pyOr (pyGet r "follow_up_timeline") (pyOr (pyGet r "timeline") (.str "As needed"))),
      ("action", pyGet r "action"),
      ("urgency", pyGet r "urgency")])

/-- A plain-string recommendation (lines 646-653). -/
def strRecOut (s : String) : PyVal :=
  .dict [("priority", .str "MEDIUM"), ("category", .str "Clinical"),
    ("text", .str s), ("timeline", .str "As needed")]

/-- The recommendation loop (lines 644-665): strings get a fixed wrapper,
non-dict non-string entries are skipped. -/
def normRecs : List PyVal → Option (List PyVal)
  | [] => some []
  | r :: rs =>
    match r with
    | .str s =>
      (match normRecs rs with
        | Option.none => Option.none
        | some rest => some (strRecOut s :: rest))
    | .dict kvs =>
      (match normRecStep (.dict kvs) with
        | Option.none => Option.none
        | some r1 =>
          match normRecs rs with
          | Option.none => Option.none
          | some rest => some (r1 :: rest))
    | _ => normRecs rs

/-- One itemized finding line of the diagnosis narrative (lines 685-687). -/
def findingLine (f1 : PyVal) : Option String :=
  match asStr (pyGet f1 "status") with
  | Option.none => Option.none
  | some st =>
    some ("- " ++ pyStr (pyGet f1 "term") ++ ": " ++ pyTitle st ++
      " (Confidence " ++ pyStr (pyGet f1 "confidence") ++ "%) - " ++
      pyStr (pyGet f1 "radiology_summary"))

def linesOf : List PyVal → Option (List String)
  | [] => some []
  | f :: fs =>
    match findingLine f with
    | Option.none => Option.none
    | some l =>
      match linesOf fs with
      | Option.none => Option.none
      | some ls => some (l :: ls)

/-- Iteration (`for x in v`): lists yield elements, strings yield 1-character
strings, dicts yield their keys; other values raise `TypeError`. -/
def iterElems : PyVal → Option (List PyVal)
  | .list xs => some xs
  | .str s => some (s.data.map (fun c => PyVal.str (String.singleton c)))
  | .dict kvs => some (kvs.map (fun kv => PyVal.str kv.1))
  | _ => Option.none

/-- The fixed response for non-dict raw input (lines 561-573). -/
def unableToParse : PyVal :=
  .dict [("provider", .str "unknown"), ("is_medical_image", .bool false),
    ("diagnosis", .str "Unable to parse model response."),
    ("confidence_score", .num 0), ("findings", .list []),
    ("critical_findings", .list []), ("recommendations", .list []),
    ("priority_recommendations", .list []), ("urgency", .str "routine")]

/-- `model = raw.get("model", raw.get("model_used"))` (line 576). -/
def modelOf (raw : PyVal) : PyVal :=
  match pyLookup raw "model" with
  | some v => v
  | Option.none => pyGet raw "model_used"

/-- `overall_impression or diagnosis` (line 579). -/
def oiOf (raw : PyVal) : PyVal :=
  pyOr (pyGet raw "overall_impression") (pyGet raw "diagnosis")

/-- `patient_friendly_summary or plain_language_summary` (line 582). -/
def psOf (raw : PyVal) : PyVal :=
  pyOr (pyGet raw "patient_friendly_summary") (pyGet raw "plain_language_summary")

/-- The findings source (lines 602-604): `critical_findings or []`, replaced
by a list-valued `findings` field when falsy. -/
def cfrOf (raw : PyVal) : PyVal :=
  if !truthy (pyOr (pyGet raw "critical_findings") (.list [])) then
    (match pyGet raw "findings" with
      | .list l => PyVal.list l
      | _ => pyOr (pyGet raw "critical_findings") (.list []))
  else pyOr (pyGet raw "critical_findings") (.list [])

/-- The recommendations source (line 643). -/
def recsRawOf (raw : PyVal) : PyVal :=
  pyOr (pyGet raw "priority_recommendations") (pyOr (pyGet raw "recommendations") (.list []))

/-- The `**Pulmonary Findings:**` block (lines 682-687). -/
def findingSectionsOf (nfs : List PyVal) : Option (List String) :=
  if nfs.isEmpty then some []
  else
    match linesOf nfs with
    | Option.none => Option.none
    | some ls => some ("**Pulmonary Findings:**" :: ls)

/-- Assembly of the diagnosis sections in fixed order (lines 667-687). -/
def sectionsOf (raw : PyVal) (secsF : List String) : List String :=
  (if truthy (pyGet raw "symptom_response") then
    ["**Regarding Your Symptoms:** " ++ pyStr (pyGet raw "symptom_response")] else []) ++
  (if truthy (oiOf raw) then ["**Overall Impression:** " ++ pyStr (oiOf raw)] else []) ++
  (if truthy (pyGet raw "symptom_correlation") then
    ["**Symptom Correlation:** " ++ pyStr (pyGet raw "symptom_correlation")] else []) ++
  (if truthy (psOf raw) then
    ["**Patient-Friendly Summary:** " ++ pyStr (psOf raw)] else []) ++
  secsF

/-- `diagnosis_text` (lines 689-691). -/
def diagTextPy (raw : PyVal) (secsF : List String) : PyVal :=
  if !(sectionsOf raw secsF).isEmpty then PyVal.str (joinSep "\n" (sectionsOf raw secsF))
  else pyOr (oiOf raw) (.str "No significant abnormalities detected.")

/-- The normalized output dict (lines 696-713). -/
def buildOutput (raw : PyVal) (nfs nrecs : List PyVal) (secsF : List String) : PyVal :=
  .dict [
    ("provider", pyGetD raw "provider" (.str "unknown")),
    ("model", modelOf raw),
    ("is_medical_image", pyGetD raw "is_medical_image" (.bool true)),
    ("image_type", pyGetD raw "image_type" (.str "unknown")),
    ("provided_symptoms", pyGetD raw "provided_symptoms" (.str "")),
    ("overall_impression", oiOf raw),
    ("patient_friendly_summary", psOf raw),
    ("extended_findings", pyOr (pyGet raw "extended_findings") (.list [])),
    ("critical_findings", .list nfs),
    ("findings", .list nfs),
    ("recommendations", .list nrecs),
    ("priority_recommendations", .list nrecs),
    ("urgency", pyGetD raw "urgency" (.str "routine")),
    ("confidence_score", .num (intToRat (confScoreOf raw))),
    ("confidence_probability",
      if isNum (pyGet raw "confidence_score") then pyGet raw "confidence_score" else .none),
    ("diagnosis", diagTextPy raw secsF)]

/-- `GroqVLMRouter._normalize_vlm_response` (lines 558-713).  `none` models
an uncaught exception inside the normalizer (in the source this propagates
to the caller's generic handler); the guards model the debug logging of
lines 590-593, which slices truthy `symptom_response`/`symptom_correlation`
values (also sliced at lines 669/677). -/
def pyNormalize (raw : PyVal) : Option PyVal :=
  if isDict raw then
    if truthy (pyGet raw "symptom_response") && !sliceOk (pyGet raw "symptom_response") then
      Option.none
    else if truthy (pyGet raw "symptom_correlation") &&
        !sliceOk (pyGet raw "symptom_correlation") then
      Option.none
    else
      match iterElems (cfrOf raw) with
      | Option.none => Option.none
      | some cfItems =>
        match normFindings cfItems with
        | Option.none => Option.none
        | some nfs =>
          match iterElems (recsRawOf raw) with
          | Option.none => Option.none
          | some recItems =>
            match normRecs recItems with
            | Option.none => Option.none
            | some nrecs =>
              match findingSectionsOf nfs with
              | Option.none => Option.none
              | some secsF => some (buildOutput raw nfs nrecs secsF)
  else some unableToParse

/-! ### The provider fallback loop (`GroqVLMRouter.analyze_medical_image`)

Each vision adapter (`_call_groq_vlm`, `_call_openai_vlm`, `_call_gemini_vlm`)
returns either `None` (failure: missing key, refusal, HTTP error, bad JSON) or
a `VLMResponse` wrapping the parsed payload dict; `VLMResponse` instances are
always truthy, so an adapter outcome is modelled as `Option PyVal`.  The body
of the success branch (lines 385-502) evaluates several f-strings and a
telemetry argument over the payload; operations that raise in CPython are
modelled as `Except.error` with the corresponding exception message, and the
outer `except` handler (lines 531-556) maps any such exception to the error
dict of line 550. -/

/-- Python type name of an embedded value, as used in exception messages. -/
def typeName : PyVal → String
  | .none => "NoneType"
  | .bool _ => "bool"
  | .num q => if q.den = 1 then "int" else "float"
  | .str _ => "str"
  | .list _ => "list"
  | .dict _ => "dict"

def subscriptMsg : PyVal → String
  | .dict _ => "unhashable type: 'slice'"
  | v => "'" ++ typeName v ++ "' object is not subscriptable"

def noLenMsg (v : PyVal) : String := "object of type '" ++ typeName v ++ "' has no len()"

def attrMsg (v : PyVal) (a : String) : String :=
  "'" ++ typeName v ++ "' object has no attribute '" ++ a ++ "'"

def fmtFMsg : PyVal → String
  | .str _ => "Unknown format code 'f' for object of type 'str'"
  | v => "unsupported format string passed to " ++ typeName v ++ ".__format__"

/-- The four findings the validation logging looks for (line 401). -/
def reqFindingNames : List String :=
  ["Consolidation", "Air Bronchogram", "Pleural Effusion", "Infiltrate"]

/-- The comprehension of line 402: `f.get(...)` raises on the first
non-dict element. -/
def findTermsLoop : List PyVal → Except String Unit
  | [] => .ok ()
  | f :: fs => if isDict f then findTermsLoop fs else .error (attrMsg f "get")

/-- Lines 408-415: for a required finding name with a match, the log line
formats `confidence` with `:.2f` and slices `radiology_summary`. -/
def checkMatchedFinding (items : List PyVal) (name : String) : Except String Unit :=
  match items.find? (fun f => pyEqStr (pyGet f "term") name) with
  | Option.none => .ok ()
  | some f =>
    let c := pyGetD f "confidence" (.num 0)
    if !isNum c then .error (fmtFMsg c)
    else
      let rs := pyGetD f "radiology_summary" (.str "None")
      if !sliceOk rs then .error (subscriptMsg rs) else .ok ()

def checkRequired (items : List PyVal) : List String → Except String Unit
  | [] => .ok ()
  | n :: ns =>
    match checkMatchedFinding items n with
    | .error e => .error e
    | .ok _ => checkRequired items ns

/-- The success branch of the provider loop (lines 385-502): validation
logging over the raw payload, normalization, and the telemetry call whose
`prediction` argument slices the normalized `overall_impression`
(line 482) — the key is always present, so a `None` value raises. -/
def successBody (rd : PyVal) : Except String PyVal :=
  if !isDict rd then .error (attrMsg rd "keys")
  else
    let cf := pyGetD rd "critical_findings" (.list [])
    if !pyLenOk cf then .error (noLenMsg cf)
    else
      let step1 : Except String Unit :=
        if truthy cf then
          match iterElems cf with
          | Option.none => .error (noLenMsg cf)
          | some items =>
            match findTermsLoop items with
            | .error e => .error e
            | .ok _ => checkRequired items reqFindingNames
        else .ok ()
      match step1 with
      | .error e => .error e
      | .ok _ =>
        let oiV := pyGetD rd "overall_impression" (.str "")
        if truthy oiV && !sliceOk oiV then .error (subscriptMsg oiV)
        else
          match pyNormalize rd with
          | Option.none => .error "TypeError in _normalize_vlm_response"
          | some nr =>
            let oiN := pyGetD nr "overall_impression" (.str "Analysis completed")
            if !sliceOk oiN then .error (subscriptMsg oiN)
            else .ok nr

/-- The all-providers-failed result (lines 523-529). -/
def allFailedDict : PyVal :=
  .dict [("error", .str "All VLM providers unavailable"), ("provider", .str "none"),
    ("is_medical_image", .bool false),
    ("diagnosis", .str "Unable to analyze image due to service unavailability"),
    ("confidence_score", .num 0)]

/-- The generic exception result (lines 550-556): `str(e)` is the message of
the exception that escaped the provider loop. -/
def exceptDict (msg : String) : PyVal :=
  .dict [("error", .str msg), ("provider", .str "error"), ("is_medical_image", .bool false),
    ("diagnosis", .str ("Analysis failed: " ++ msg)), ("confidence_score", .num 0)]

def processSuccess (rd : PyVal) : PyVal :=
  match successBody rd with
  | .ok v => v
  | .error msg => exceptDict msg

/-- The provider loop of `analyze_medical_image` (lines 373-529): adapters
are tried in configured order; the first truthy result is processed and
returned; if every adapter fails the explicit all-failed dict is returned. -/
def analyzeLoop : List (Option PyVal) → PyVal
  | [] => allFailedDict
  | Option.none :: rest => analyzeLoop rest
  | some rd :: _ => processSuccess rd

/-! ### The body-region safety gate (`BodyRegionDetector`) -/

/-- Per-region heuristics table (body_region_detector.py lines 12-43). -/
structure RegionCrit where
  name : String
  arLo : ℚ
  arHi : ℚ
  expected : List String
  pattern : String
  minConf : ℚ

def REGION_CHARACTERISTICS : List RegionCrit := [
  ⟨"chest", mkRat 7 10, mkRat 13 10,
    ["lung", "thorax", "chest", "cardiac", "pulmonary", "rib", "heart"],
    "bimodal", mkRat 7 10⟩,
  ⟨"abdomen", mkRat 8 10, mkRat 14 10,
    ["abdomen", "abdominal", "bowel", "pelvis", "intestine", "gastric"],
    "multimodal", mkRat 6 10⟩,
  ⟨"extremity", mkRat 3 10, 3,
    ["bone", "joint", "extremity", "arm", "leg", "hand", "foot", "shoulder",
     "knee", "elbow", "wrist", "humerus", "femur"],
    "high_contrast", mkRat 6 10⟩,
  ⟨"skull", mkRat 8 10, mkRat 12 10,
    ["skull", "cranial", "head", "cranium", "brain"],
    "dense", mkRat 7 10⟩,
  ⟨"spine", mkRat 2 10, mkRat 6 10,
    ["spine", "vertebra", "spinal", "lumbar", "cervical", "thoracic"],
    "linear", mkRat 6 10⟩]

/-- Image statistics produced by `_analyse` (lines 100-116) together with the
aspect ratio (line 54) and the pixel-level left/right-darker-than-center test
of `_is_chest` (lines 131-136), abstracted as a feature record: the numeric
image processing (PIL/NumPy/OpenCV) is treated as the feature source. -/
structure ImgFeatures where
  ar : ℚ
  numPeaks : ℕ
  meanV : ℚ
  contrast : ℚ
  edgeDensity : ℚ
  chestDarkSides : Bool
  labels : List String

/-- Python `needle in hay` substring test. -/
def strContainsSub (hay needle : String) : Bool :=
  (List.range (hay.data.length + 1)).any (fun i => needle.data.isPrefixOf (hay.data.drop i))

/-- `_matches_pattern` (lines 118-129). -/
def matchesPattern (ch : ImgFeatures) (p : String) : Bool :=
  if p == "bimodal" then
    decide (1 ≤ ch.numPeaks) && decide (ch.numPeaks ≤ 3) && decide (mkRat 1 4 < ch.contrast)
  else if p == "multimodal" then decide (3 ≤ ch.numPeaks)
  else if p == "high_contrast" then decide (mkRat 1 2 < ch.contrast)
  else if p == "dense" then decide ((100 : ℚ) < ch.meanV)
  else if p == "linear" then decide (mkRat 1 10 < ch.edgeDensity)
  else false

/-- `_is_extremity` (lines 138-139). -/
def isExtremityHeur (ch : ImgFeatures) : Bool :=
  decide (mkRat 1 2 < ch.contrast) && decide (mkRat 1 20 < ch.edgeDensity)

/-- Number of vision labels whose lowercased description contains one of the
region's expected feature keywords (lines 67-75). -/
def labelMatchCount (ch : ImgFeatures) (crit : RegionCrit) : ℕ :=
  (ch.labels.filter (fun t => crit.expected.any (fun e => strContainsSub t e))).length

/-- Python `round(x, 2)` on the score lattice. -/
def round2 (q : ℚ) : ℚ := mkRat (pyRound (qMul q 100)) 100

/-- The heuristic score of one candidate region (lines 59-87): aspect-ratio
range (+0.3), label keyword matches (+0.1 each, up to 3), density-pattern
match (+0.2), region-specific heuristics (+0.3); clamped at 1.0 and rounded
to two decimals. -/
def regionScore (ch : ImgFeatures) (crit : RegionCrit) : ℚ :=
  let s1 : ℚ := if crit.arLo ≤ ch.ar ∧ ch.ar ≤ crit.arHi then mkRat 3 10 else 0
  let s2 :=
    if !ch.labels.isEmpty && labelMatchCount ch crit != 0 then
      qAdd s1 (qMul (mkRat 1 10) (intToRat (Int.ofNat (min (labelMatchCount ch crit) 3))))
    else s1
  let s3 := if matchesPattern ch crit.pattern then qAdd s2 (mkRat 2 10) else s2
  let s4 := if crit.name == "chest" && ch.chestDarkSides then qAdd s3 (mkRat 3 10) else s3
  let s5 := if crit.name == "extremity" && isExtremityHeur ch then qAdd s4 (mkRat 3 10) else s4
  round2 (min s5 1)

/-- Python `max(items, key=score)`: the first maximal element wins. -/
def maxByScore : (String × ℚ) → List (String × ℚ) → (String × ℚ)
  | b, [] => b
  | b, x :: xs => maxByScore (if b.2 < x.2 then x else b) xs

/-- `REGION_CHARACTERISTICS[name]['min_confidence']`. -/
def minConfOf (name : String) : ℚ :=
  match REGION_CHARACTERISTICS.find? (fun c => c.name == name) with
  | some c => c.minConf
  | Option.none => 0

/-- Selection stage of `detect_body_region` (lines 88-94): the first
highest-scoring region wins; if its score is strictly below that region's
minimum confidence the returned region is `"unknown"`. -/
def selectBest (scores : List (String × ℚ)) : String × ℚ × List (String × ℚ) :=
  match scores with
  | [] => ("unknown", 0, [])
  | s :: ss =>
    let best := maxByScore s ss
    if best.2 < minConfOf best.1 then ("unknown", best.2, scores)
    else (best.1, best.2, scores)

/-- `detect_body_region` given extracted features (lines 56-94): score every
region, take the first highest-scoring one, and fall back to `"unknown"` when
its score is below the region's minimum confidence.  The returned score list
stands for the per-region debug scores dict. -/
def detectFromFeatures (ch : ImgFeatures) : String × ℚ × List (String × ℚ) :=
  selectBest (REGION_CHARACTERISTICS.map (fun crit => (crit.name, regionScore ch crit)))

/-- `detect_body_region` including its `try`/`except` (lines 45-97): when any
internal step raises (unreadable image, histogram or edge computation
failure — modelled as absent features), the result is `("unknown", 0.0, {})`. -/
def detectBodyRegion : Option ImgFeatures → String × ℚ × List (String × ℚ)
  | some ch => detectFromFeatures ch
  | Option.none => ("unknown", 0, [])

/-- Python `str.strip()` (ASCII whitespace). -/
def isSpaceChar (c : Char) : Bool :=
  c.toNat == 32 || c.toNat == 9 || c.toNat == 10 || c.toNat == 11 || c.toNat == 12 || c.toNat == 13

def pyStrip (s : String) : String :=
  ⟨((s.data.dropWhile isSpaceChar).reverse.dropWhile isSpaceChar).reverse⟩

def cannotDetermineMsg : String :=
  "Cannot determine body region from the uploaded image. Please upload a clearer X-ray image."

def mismatchMsg (requested detected : String) : String :=
  "⚠️ CRITICAL SAFETY ERROR: You requested " ++ requested ++
    " analysis, but the uploaded image appears to be a " ++ detected ++
    " X-ray. Analysis blocked."

/-- `validate_region_match` (lines 142-149). -/
def validateRegionMatch (detected requested : String) : Bool × String :=
  let det := pyStrip (pyLower detected)
  let req := pyStrip (pyLower requested)
  if det == "unknown" then (false, cannotDetermineMsg)
  else if det != req then (false, mismatchMsg requested detected)
  else (true, "")

/-! ### Helper lemmas -/

theorem pyGet_eq_lookup {kvs : List (String × PyVal)} {k : String} {v : PyVal}
    (h : pyGet (.dict kvs) k = v) (hne : v ≠ PyVal.none) : kvs.lookup k = some v := by
  simp only [pyGet] at h
  cases hl : kvs.lookup k with
  | none =>
    rw [hl] at h
    simp at h
    exact absurd h.symm hne
  | some x =>
    rw [hl] at h
    simp at h
    rw [h]

theorem pyGetD_of_pyGet {d : PyVal} {k : String} {v w : PyVal}
    (h : pyGet d k = v) (hne : v ≠ PyVal.none) : pyGetD d k w = v := by
  cases d with
  | dict kvs =>
    have hl := pyGet_eq_lookup h hne
    simp [pyGetD, hl]
  | none => simp [pyGet] at h; exact absurd h.symm hne
  | bool b => simp [pyGet] at h; exact absurd h.symm hne
  | num q => simp [pyGet] at h; exact absurd h.symm hne
  | str s => simp [pyGet] at h; exact absurd h.symm hne
  | list xs => simp [pyGet] at h; exact absurd h.symm hne

/-! ### Claim C1: confidence scaling -/

/-- C1 (counterexample): the claim says a raw confidence `c > 1` normalizes to
`round(min(c, 100))` and the normalized confidence always lies in `[0, 100]`;
but for `c = 150` the code's rule (line 598, identical at line 621) yields
`round(150) = 150`, not `round(min(150, 100)) = 100` — the `else` branch has
no upper clamp — at both overall and per-finding level. -/
theorem confidence_over100_not_clamped :
    confScoreOf (.dict [("confidence_score", .num 150)]) = 150 ∧
    findingConfPct (.dict [("confidence", .num 150)]) = 150 ∧
    pyRound (min (150 : ℚ) 100) = 100 ∧
    ¬ confScoreOf (.dict [("confidence_score", .num 150)]) ≤ 100 ∧
    confScoreOf (.dict [("confidence_score", .num 150)]) ≠ pyRound (min (150 : ℚ) 100) := by
  refine ⟨by decide, by decide, by decide, by decide, by decide⟩

/-- C1 (amended): for every numeric raw confidence `c`, normalization (the
rule applied to the overall `confidence_score` and to each per-finding
`confidence`) produces `round(c * 100)` clamped into `[0, 100]` when
`c ≤ 1` — in particular for `0 ≤ c ≤ 1` this is exactly `round(c * 100)`,
an integer in `[0, 100]` — and produces `round(c)` with **no** upper clamp
when `c > 1`. -/
theorem confidence_scaling_amended (c : ℚ) (v f : PyVal)
    (hv : pyGet v "confidence_score" = .num c) (hf : pyGet f "confidence" = .num c) :
    confScoreOf v = normConfidence c ∧
    findingConfPct f = normConfidence c ∧
    (0 ≤ c → c ≤ 1 → normConfidence c = pyRound (qMul c 100) ∧
      0 ≤ normConfidence c ∧ normConfidence c ≤ 100) ∧
    (1 < c → normConfidence c = pyRound c) := by
  refine ⟨?_, ?_, ?_, ?_⟩
  · simp [confScoreOf, hv, isNum, numVal]
  · simp [findingConfPct, hf, isNum, numVal]
  · intro h0 h1
    have hle : qMul c 100 ≤ 100 := by
      rw [qMul_eq]
      nlinarith
    have hge : 0 ≤ qMul c 100 := by
      rw [qMul_eq]
      nlinarith
    have hr0 : 0 ≤ pyRound (qMul c 100) := pyRound_nonneg hge
    have hr100 : pyRound (qMul c 100) ≤ 100 := pyRound_le hle
    unfold normConfidence
    rw [if_pos h1]
    constructor
    · omega
    constructor
    · omega
    · omega
  · intro h
    unfold normConfidence
    rw [if_neg (not_le.mpr h)]

/-- C1 (witness): the amended rule at `c = 0.92`. -/
theorem confidence_scaling_amended_witness :
    confScoreOf (.dict [("confidence_score", .num (mkRat 92 100))]) =
      normConfidence (mkRat 92 100) ∧
    findingConfPct (.dict [("confidence", .num (mkRat 92 100))]) =
      normConfidence (mkRat 92 100) ∧
    (0 ≤ mkRat 92 100 → mkRat 92 100 ≤ 1 →
      normConfidence (mkRat 92 100) = pyRound (qMul (mkRat 92 100) 100) ∧
      0 ≤ normConfidence (mkRat 92 100) ∧ normConfidence (mkRat 92 100) ≤ 100) ∧
    (1 < mkRat 92 100 → normConfidence (mkRat 92 100) = pyRound (mkRat 92 100)) :=
  confidence_scaling_amended (mkRat 92 100)
    (.dict [("confidence_score", .num (mkRat 92 100))])
    (.dict [("confidence", .num (mkRat 92 100))]) rfl rfl

/-! ### Claim C3: all providers failing -/

/-- C3 (counterexample): when every adapter fails, the error value of the
returned dict is the literal `"All VLM providers unavailable"` (line 524),
not the claim's literal `"all_providers_unavailable"`. -/
theorem allfail_error_literal_mismatch :
    pyGet (analyzeLoop [Option.none]) "error" = .str "All VLM providers unavailable" ∧
    "All VLM providers unavailable" ≠ "all_providers_unavailable" :=
  ⟨rfl, by decide⟩

/-- C3 (amended): for every provider order in which every adapter fails or
returns unparseable output (the adapter returns `None`), `analyze_medical_image`
returns the explicit well-formed failure dict
`{error: "All VLM providers unavailable", provider: "none",
is_medical_image: false, diagnosis: ..., confidence_score: 0}` and never
raises an exception to the caller (the embedding is total). -/
theorem allfail_explicit_result (rs : List (Option PyVal))
    (h : ∀ x ∈ rs, x = Option.none) : analyzeLoop rs = allFailedDict := by
  induction rs with
  | nil => rfl
  | cons x xs ih =>
    have hx : x = Option.none := h x (List.mem_cons_self x xs)
    subst hx
    rw [show analyzeLoop (Option.none :: xs) = analyzeLoop xs from rfl]
    exact ih (fun y hy => h y (List.mem_cons_of_mem _ hy))

/-- C3 (witness): two failing adapters. -/
theorem allfail_explicit_result_witness :
    analyzeLoop [Option.none, Option.none] = allFailedDict :=
  allfail_explicit_result [Option.none, Option.none] (by simp)

/-! ### Claim C4: non-dict input to the normalizer -/

/-- C4: every non-dict raw input (a plain string, `None`, a list, a number)
normalizes to the fixed `NormalizedDiagnosis`-shaped "unable to parse" result
with confidence 0 and empty findings/recommendations lists, and the
normalizer does not raise (it returns `some` of a well-formed dict). -/
theorem nondict_input_safe_normalization (v : PyVal) (h : isDict v = false) :
    pyNormalize v = some unableToParse ∧
    pyGet unableToParse "diagnosis" = .str "Unable to parse model response." ∧
    pyGet unableToParse "confidence_score" = .num 0 ∧
    pyGet unableToParse "findings" = .list [] ∧
    pyGet unableToParse "recommendations" = .list [] := by
  refine ⟨?_, rfl, rfl, rfl, rfl⟩
  unfold pyNormalize
  rw [h]
  simp

/-- C4 (witness): the raw string `"not json"`. -/
theorem nondict_input_safe_normalization_witness :
    pyNormalize (.str "not json") = some unableToParse ∧
    pyGet unableToParse "diagnosis" = .str "Unable to parse model response." ∧
    pyGet unableToParse "confidence_score" = .num 0 ∧
    pyGet unableToParse "findings" = .list [] ∧
    pyGet unableToParse "recommendations" = .list [] :=
  nondict_input_safe_normalization (.str "not json") rfl

/-! ### Claim C2: fallback correctness -/

/-- A structurally valid payload (a parsed JSON object with the adapter's
`provider`/`model` fields and no refusal) that carries no
`overall_impression` and no `diagnosis` text. -/
def noImpressionPayload : PyVal :=
  .dict [("provider", .str "openai"), ("model", .str "gpt-4o-mini"),
    ("is_medical_image", .bool true), ("image_type", .str "chest_xray"),
    ("provided_symptoms", .str ""), ("critical_findings", .list []),
    ("priority_recommendations", .list []),
    ("confidence_score", .num (mkRat 9 10)), ("urgency", .str "routine")]

/-- Observation used to distinguish results: the `provider` field. -/
def providerOfOpt : Option PyVal → PyVal
  | some v => pyGet v "provider"
  | Option.none => PyVal.none

/-- C2 (failing input): with provider order `[A, B]` where A fails and B
returns `noImpressionPayload`, normalization itself succeeds, but the
telemetry call of line 482 slices the normalized `overall_impression`
(the key is present with value `None`, so `.get`'s default never applies),
raising `TypeError: 'NoneType' object is not subscriptable`; the outer
handler (lines 531-556) then returns the generic error dict with
`provider = "error"` instead of B's normalized payload — contradicting both
the claim and the spec's rule that telemetry must never affect the returned
diagnosis. -/
theorem fallback_blocked_by_telemetry_crash :
    analyzeLoop [Option.none, some noImpressionPayload] =
      exceptDict "'NoneType' object is not subscriptable" ∧
    (pyNormalize noImpressionPayload).isSome = true ∧
    pyGet (analyzeLoop [Option.none, some noImpressionPayload]) "provider" = .str "error" ∧
    some (analyzeLoop [Option.none, some noImpressionPayload]) ≠
      pyNormalize noImpressionPayload := by
  refine ⟨rfl, rfl, rfl, ?_⟩
  intro h
  have h3 := congrArg providerOfOpt h
  rw [show providerOfOpt (some (analyzeLoop [Option.none, some noImpressionPayload])) =
      PyVal.str "error" from rfl] at h3
  rw [show providerOfOpt (pyNormalize noImpressionPayload) = PyVal.str "openai" from rfl] at h3
  simp at h3

/-! ### Claim C7: severity of absent findings -/

/-- C7: for every finding dict whose `status` is `"absent"` and whose raw
`severity` is `"none"` or `"normal"`, the finding normalizes (no exception)
and the normalized `severity` is `"normal"` (line 617). -/
theorem absent_severity_normalized (f : PyVal)
    (hs : pyGet f "status" = .str "absent")
    (hv : pyGet f "severity" = .str "none" ∨ pyGet f "severity" = .str "normal") :
    (normFindingStep f).isSome = true ∧
    (normFindingStep f).map (fun f1 => pyGet f1 "severity") = some (.str "normal") := by
  have hsd : pyGetD f "status" (.str "uncertain") = .str "absent" :=
    pyGetD_of_pyGet hs (by simp)
  rcases hv with hv | hv <;>
    [have hvd : pyGetD f "severity" (.str "none") = .str "none" :=
      pyGetD_of_pyGet hv (by simp);
     have hvd : pyGetD f "severity" (.str "none") = .str "normal" :=
      pyGetD_of_pyGet hv (by simp)] <;>
  · simp only [normFindingStep, hsd, hvd]
    simp +decide [asStr, pyGet, List.lookup]

/-- C7 (witness): a concrete absent finding with severity `"none"`. -/
theorem absent_severity_normalized_witness :
    (normFindingStep (.dict [("term", .str "Consolidation"), ("status", .str "absent"),
      ("severity", .str "none"), ("confidence", .num 1)])).isSome = true ∧
    (normFindingStep (.dict [("term", .str "Consolidation"), ("status", .str "absent"),
      ("severity", .str "none"), ("confidence", .num 1)])).map
        (fun f1 => pyGet f1 "severity") = some (.str "normal") :=
  absent_severity_normalized _ rfl (Or.inl rfl)

/-! ### Claim C9: asymmetric default confidences -/

/-- Whatever the other fields hold, every finding dict the loop normalizes
carries the per-finding confidence of lines 619-623 in its `confidence`
slot. -/
theorem normFindingStep_confidence (f f1 : PyVal)
    (h : normFindingStep f = some f1) :
    pyGet f1 "confidence" = .num (intToRat (findingConfPct f)) := by
  simp only [normFindingStep] at h
  split at h
  · exact Option.noConfusion h
  · split at h
    · exact Option.noConfusion h
    · rw [← Option.some.inj h]
      rfl

/-- C9: defaults are asymmetric across levels — for every raw result whose
overall `confidence_score` is missing or non-numeric, the normalized
`confidence_score` is `0` (line 600), while for every finding dict whose
per-finding `confidence` is missing or non-numeric — regardless of its
`status`, `severity` or any other field — the per-finding confidence
defaults to `50` (line 623), and every normalized finding produced from it
carries `confidence = 50`. -/
theorem default_confidences_asymmetric (v f : PyVal)
    (hv : isNum (pyGet v "confidence_score") = false)
    (hf : isNum (pyGet f "confidence") = false) :
    confScoreOf v = 0 ∧ findingConfPct f = 50 ∧
    ∀ f1, normFindingStep f = some f1 →
      pyGet f1 "confidence" = .num (intToRat 50) := by
  have hp : findingConfPct f = 50 := by
    unfold findingConfPct
    rw [hf]
    simp
  refine ⟨?_, hp, ?_⟩
  · unfold confScoreOf
    rw [hv]
    simp
  · intro f1 h1
    rw [normFindingStep_confidence f f1 h1, hp]

/-- C9 (witness): a raw result lacking `confidence_score`, and a typical
finding — `status` `"present"`, a real severity — lacking `confidence`. -/
theorem default_confidences_asymmetric_witness :
    confScoreOf (.dict [("overall_impression", .str "ok")]) = 0 ∧
    findingConfPct (.dict [("term", .str "Infiltrate"),
      ("status", .str "present"), ("severity", .str "moderate")]) = 50 ∧
    ∀ f1, normFindingStep (.dict [("term", .str "Infiltrate"),
        ("status", .str "present"), ("severity", .str "moderate")]) = some f1 →
      pyGet f1 "confidence" = .num (intToRat 50) :=
  default_confidences_asymmetric
    (.dict [("overall_impression", .str "ok")])
    (.dict [("term", .str "Infiltrate"), ("status", .str "present"),
      ("severity", .str "moderate")]) rfl rfl

/-! ### Claim C10: totality of the body-region detector -/

/-- C10: when any internal step of `detect_body_region` raises (unreadable
image, histogram/edge failure — the `except` of lines 95-97), the detector
returns `("unknown", 0.0, {})` instead of propagating, and for every
requested region the fail-closed validation then refuses the analysis
(`passed = False`). -/
theorem unreadable_image_fails_closed :
    detectBodyRegion Option.none = ("unknown", 0, []) ∧
    ∀ req : String, (validateRegionMatch (detectBodyRegion Option.none).1 req).1 = false := by
  constructor
  · rfl
  · intro req
    show (validateRegionMatch "unknown" req).1 = false
    unfold validateRegionMatch
    rw [show pyStrip (pyLower "unknown") = "unknown" from by decide]
    simp

/-! ### Claims C5 and C6: the body-region gate -/

theorem round2_bounds (q : ℚ) (h0 : 0 ≤ q) (h1 : q ≤ 1) :
    0 ≤ round2 q ∧ round2 q ≤ 1 := by
  have hm : 0 ≤ qMul q 100 := by
    rw [qMul_eq]
    nlinarith
  have hM : qMul q 100 ≤ 100 := by
    rw [qMul_eq]
    nlinarith
  have hr0 := pyRound_nonneg hm
  have hr1 : pyRound (qMul q 100) ≤ (100 : ℤ) := pyRound_le (by exact_mod_cast hM)
  unfold round2
  rw [Rat.mkRat_eq_div]
  constructor
  · apply div_nonneg
    · exact_mod_cast hr0
    · norm_num
  · rw [div_le_one (by norm_num)]
    exact_mod_cast hr1

theorem ite_add_nonneg (c : Prop) [Decidable c] (s k : ℚ)
    (hs : 0 ≤ s) (hk : 0 ≤ k) : 0 ≤ (if c then qAdd s k else s) := by
  split
  · rw [qAdd_eq]
    linarith
  · exact hs

/-- Every heuristic region score is clamped to `[0, 1]`. -/
theorem regionScore_bounds (ch : ImgFeatures) (crit : RegionCrit) :
    0 ≤ regionScore ch crit ∧ regionScore ch crit ≤ 1 := by
  unfold regionScore
  refine round2_bounds _ (le_min ?_ zero_le_one) (min_le_right _ _)
  refine ite_add_nonneg _ _ _ ?_ (by decide)
  refine ite_add_nonneg _ _ _ ?_ (by decide)
  refine ite_add_nonneg _ _ _ ?_ (by decide)
  refine ite_add_nonneg _ _ _ ?_ ?_
  · split
    · decide
    · decide
  · rw [qMul_eq]
    apply mul_nonneg
    · decide
    · rw [intToRat_eq]
      have hn : (0:ℤ) ≤ Int.ofNat (min (labelMatchCount ch crit) 3) := Int.ofNat_nonneg _
      exact_mod_cast hn

theorem maxByScore_mem (l : List (String × ℚ)) (b : String × ℚ) :
    maxByScore b l = b ∨ maxByScore b l ∈ l := by
  induction l generalizing b with
  | nil => exact Or.inl rfl
  | cons x xs ih =>
    rw [show maxByScore b (x :: xs) = maxByScore (if b.2 < x.2 then x else b) xs from rfl]
    rcases ih (if b.2 < x.2 then x else b) with h | h
    · rw [h]
      split
      · exact Or.inr (List.mem_cons_self _ _)
      · exact Or.inl rfl
    · exact Or.inr (List.mem_cons_of_mem _ h)

theorem maxByScore_ge (l : List (String × ℚ)) (b : String × ℚ) :
    b.2 ≤ (maxByScore b l).2 ∧ ∀ x ∈ l, x.2 ≤ (maxByScore b l).2 := by
  induction l generalizing b with
  | nil => exact ⟨le_refl _, by simp⟩
  | cons x xs ih =>
    rw [show maxByScore b (x :: xs) = maxByScore (if b.2 < x.2 then x else b) xs from rfl]
    obtain ⟨h1, h2⟩ := ih (if b.2 < x.2 then x else b)
    have hb : b.2 ≤ (if b.2 < x.2 then x else b).2 := by
      split
      · rename_i hlt
        exact le_of_lt hlt
      · exact le_refl _
    have hx : x.2 ≤ (if b.2 < x.2 then x else b).2 := by
      split
      · exact le_refl _
      · rename_i hlt
        exact le_of_not_lt hlt
    refine ⟨le_trans hb h1, ?_⟩
    intro y hy
    rcases List.mem_cons.mp hy with hy | hy
    · rw [hy]
      exact le_trans hx h1
    · exact h2 y hy

theorem selectBest_props (scores : List (String × ℚ)) (hne : scores ≠ []) :
    ((selectBest scores).2.2 = scores) ∧
    (∃ p ∈ scores, p.2 = (selectBest scores).2.1) ∧
    (∀ p ∈ scores, p.2 ≤ (selectBest scores).2.1) ∧
    ((selectBest scores).1 = "unknown" ∨
      (((selectBest scores).1, (selectBest scores).2.1) ∈ scores ∧
        minConfOf (selectBest scores).1 ≤ (selectBest scores).2.1)) := by
  cases scores with
  | nil => exact absurd rfl hne
  | cons s ss =>
    have hmem : maxByScore s ss = s ∨ maxByScore s ss ∈ ss := maxByScore_mem ss s
    have hge := maxByScore_ge ss s
    have hmem2 : maxByScore s ss ∈ s :: ss := by
      rcases hmem with h | h
      · rw [h]
        exact List.mem_cons_self _ _
      · exact List.mem_cons_of_mem _ h
    have hge2 : ∀ p ∈ s :: ss, p.2 ≤ (maxByScore s ss).2 := by
      intro p hp
      rcases List.mem_cons.mp hp with hp | hp
      · rw [hp]
        exact hge.1
      · exact hge.2 p hp
    rw [show selectBest (s :: ss) =
      (if (maxByScore s ss).2 < minConfOf (maxByScore s ss).1 then
        ("unknown", (maxByScore s ss).2, s :: ss)
      else ((maxByScore s ss).1, (maxByScore s ss).2, s :: ss)) from rfl]
    split
    · refine ⟨rfl, ⟨maxByScore s ss, hmem2, rfl⟩, hge2, Or.inl rfl⟩
    · rename_i hnl
      push_neg at hnl
      exact ⟨rfl, ⟨maxByScore s ss, hmem2, rfl⟩, hge2, Or.inr ⟨hmem2, hnl⟩⟩

/-- C6: for every image (feature record), every candidate score in the
returned debug scores is clamped to `[0, 1]`; the returned confidence is the
highest candidate score (it is attained and dominates all candidates); and
the returned region is either `"unknown"` or a maximal-scoring region whose
score reaches its configured minimum-confidence threshold — so a winning
score strictly below the threshold never yields that region. -/
theorem detect_region_winner_properties (ch : ImgFeatures) :
    (∀ p ∈ (detectFromFeatures ch).2.2, 0 ≤ p.2 ∧ p.2 ≤ 1) ∧
    (∃ p ∈ (detectFromFeatures ch).2.2, p.2 = (detectFromFeatures ch).2.1) ∧
    (∀ p ∈ (detectFromFeatures ch).2.2, p.2 ≤ (detectFromFeatures ch).2.1) ∧
    ((detectFromFeatures ch).1 = "unknown" ∨
      (((detectFromFeatures ch).1, (detectFromFeatures ch).2.1) ∈ (detectFromFeatures ch).2.2 ∧
        minConfOf (detectFromFeatures ch).1 ≤ (detectFromFeatures ch).2.1)) := by
  have hne : REGION_CHARACTERISTICS.map
      (fun crit => (crit.name, regionScore ch crit)) ≠ [] := by
    simp [REGION_CHARACTERISTICS]
  obtain ⟨hsc, hex, hall, hreg⟩ := selectBest_props _ hne
  unfold detectFromFeatures
  rw [hsc] at *
  refine ⟨?_, hex, hall, hreg⟩
  intro p hp
  obtain ⟨crit, _, hcrit⟩ := List.mem_map.mp hp
  rw [← hcrit]
  exact regionScore_bounds ch crit

/-- Features of an elongated, high-contrast, high-edge-density image:
aspect ratio 2.5, bimodal histogram (2 peaks), mean intensity 90,
contrast 0.8, Canny edge density 0.2, no chest-like dark flanks, no
external vision labels. -/
def elongatedImageFeatures : ImgFeatures :=
  ⟨mkRat 5 2, 2, 90, mkRat 4 5, mkRat 1 5, false, []⟩

/-- C5: the gate fails closed.  (i) Whenever the detected region differs
from the requested one and is not `"unknown"`, `validate_region_match`
returns `passed = False` with the safety message naming both the requested
and the detected region.  (ii) Whenever the detected region is `"unknown"`,
it also returns `passed = False` rather than accepting.  (iii) For an image
with aspect ratio 2.5 and high contrast and edge density, with requested
region `"chest"`, detection yields `"extremity"` and the gate returns
`passed = False` with the message naming `"extremity"` as detected and
`"chest"` as requested. -/
theorem region_gate_fails_closed :
    (∀ det req : String,
      pyStrip (pyLower det) ≠ "unknown" →
      pyStrip (pyLower det) ≠ pyStrip (pyLower req) →
      validateRegionMatch det req = (false, mismatchMsg req det)) ∧
    (∀ det req : String, pyStrip (pyLower det) = "unknown" →
      validateRegionMatch det req = (false, cannotDetermineMsg)) ∧
    ((detectFromFeatures elongatedImageFeatures).1 = "extremity" ∧
      validateRegionMatch (detectFromFeatures elongatedImageFeatures).1 "chest" =
        (false, mismatchMsg "chest" "extremity")) := by
  refine ⟨?_, ?_, by decide, by decide⟩
  · intro det req h1 h2
    unfold validateRegionMatch
    simp only [bne_iff_ne, beq_iff_eq]
    rw [if_neg h1, if_pos h2]
  · intro det req h1
    unfold validateRegionMatch
    simp only [beq_iff_eq]
    rw [if_pos h1]

/-- C5 (witness): concrete detected/requested pairs. -/
theorem region_gate_fails_closed_witness :
    validateRegionMatch "extremity" "chest" = (false, mismatchMsg "chest" "extremity") ∧
    validateRegionMatch "unknown" "chest" = (false, cannotDetermineMsg) :=
  ⟨region_gate_fails_closed.1 "extremity" "chest" (by decide) (by decide),
   region_gate_fails_closed.2.1 "unknown" "chest" (by decide)⟩

/-! ### Claim C8: idempotence of the normalizer

"Already in normalized shape" is formalized as the canonical shape of
`_normalize_vlm_response` outputs: a dict with exactly the sixteen output
keys of lines 696-713 (in their construction order), string `status`,
`severity` and recommendation `priority` fields, a string-or-`None`
recommendation `urgency`, a natural-number `confidence_score` and a
non-empty string `diagnosis`.  `NDiag`/`NFinding`/`NRec` are the shape
records and `toPyVal` produces the shaped dict. -/

@[ext]
structure NFinding where
  term : PyVal
  status : String
  category : PyVal
  title : PyVal
  severity : String
  confidence : PyVal
  radSummary : PyVal
  plainSummary : PyVal
  descr : PyVal
  details : PyVal

def NFinding.toPyVal (f : NFinding) : PyVal :=
  .dict [("term", f.term), ("status", .str f.status), ("category", f.category),
    ("title", f.title), ("severity", .str f.severity), ("confidence", f.confidence),
    ("radiology_summary", f.radSummary), ("plain_language_summary", f.plainSummary),
    ("description", f.descr), ("details", f.details)]

/-- The severity rule of line 617 on a shaped finding. -/
def sevNF (st sv : String) : String :=
  if (st == "absent") && (pyLower sv == "none" || pyLower sv == "normal")
  then "normal" else pyLower sv

/-- The normal form a shaped finding is mapped to by the finding loop. -/
def NFinding.nf (f : NFinding) : NFinding where
  term := f.term
  status := f.status
  category := .str "LUNGS"
  title := f.term
  severity := sevNF f.status f.severity
  confidence := .num (intToRat (findingConfPct f.toPyVal))
  radSummary := pyOr f.radSummary (.str "No radiology summary provided.")
  plainSummary := pyOr f.plainSummary (.str "No patient explanation provided.")
  descr := pyOr f.radSummary (.str "No radiology summary provided.")
  details := .list ([pyOr f.plainSummary (.str "No patient explanation provided."),
    .str ("Status: " ++ pyTitle f.status)].filter (fun x => truthy x))

theorem normFindingStep_toPyVal (f : NFinding) :
    normFindingStep f.toPyVal = some (f.nf).toPyVal := rfl

@[ext]
structure NRec where
  priority : String
  category : PyVal
  text : PyVal
  timeline : PyVal
  action : PyVal
  urg : Option String

def NRec.toPyVal (r : NRec) : PyVal :=
  .dict [("priority", .str r.priority), ("category", r.category), ("text", r.text),
    ("timeline", r.timeline), ("action", r.action),
    ("urgency", match r.urg with | some u => PyVal.str u | Option.none => PyVal.none)]

/-- The string selected by `(urgency or priority or "routine")` on a shaped
recommendation. -/
def recPr (r : NRec) : String :=
  match r.urg with
  | some u => if u != "" then u else (if r.priority != "" then r.priority else "routine")
  | Option.none => if r.priority != "" then r.priority else "routine"

theorem pyOr_none (b : PyVal) : pyOr PyVal.none b = b := rfl

theorem pyOr_str (a b : String) :
    pyOr (.str a) (.str b) = .str (if a != "" then a else b) := by
  simp only [pyOr, truthy]
  by_cases h : (a != "") = true
  · rw [if_pos h, if_pos h]
  · rw [if_neg h, if_neg h]

theorem recChain_eq (r : NRec) :
    asStr (pyOr (pyGet r.toPyVal "urgency")
      (pyOr (pyGet r.toPyVal "priority") (.str "routine"))) = some (recPr r) := by
  cases r with
  | mk priority category text timeline action urg =>
    cases urg with
    | none =>
      show asStr (pyOr PyVal.none (pyOr (.str priority) (.str "routine"))) = some _
      rw [pyOr_none, pyOr_str]
      rfl
    | some u =>
      show asStr (pyOr (.str u) (pyOr (.str priority) (.str "routine"))) = some _
      rw [pyOr_str, pyOr_str]
      rfl

/-- The normal form a shaped recommendation is mapped to. -/
def NRec.nf (r : NRec) : NRec where
  priority := pyUpper (recPr r)
  category := pyOr r.category (pyOr r.action (.str "Recommendation"))
  text := pyOr r.text (pyOr r.action (.str "No recommendation details provided."))
  timeline := pyOr r.timeline (.str "As needed")
  action := r.action
  urg := r.urg

theorem normRecStep_toPyVal (r : NRec) :
    normRecStep r.toPyVal = some (r.nf).toPyVal := by
  unfold normRecStep
  rw [recChain_eq]
  rfl

@[ext]
structure NDiag where
  provider : PyVal
  model : PyVal
  imi : PyVal
  imageType : PyVal
  symptoms : PyVal
  oi : PyVal
  pfs : PyVal
  extf : PyVal
  findings : List NFinding
  recs : List NRec
  urg : PyVal
  cs : ℕ
  prob : PyVal
  diagnosis : String

def NDiag.toPyVal (d : NDiag) : PyVal :=
  .dict [
    ("provider", d.provider), ("model", d.model), ("is_medical_image", d.imi),
    ("image_type", d.imageType), ("provided_symptoms", d.symptoms),
    ("overall_impression", d.oi), ("patient_friendly_summary", d.pfs),
    ("extended_findings", d.extf),
    ("critical_findings", .list (d.findings.map NFinding.toPyVal)),
    ("findings", .list (d.findings.map NFinding.toPyVal)),
    ("recommendations", .list (d.recs.map NRec.toPyVal)),
    ("priority_recommendations", .list (d.recs.map NRec.toPyVal)),
    ("urgency", d.urg),
    ("confidence_score", .num (intToRat (Int.ofNat d.cs))),
    ("confidence_probability", d.prob),
    ("diagnosis", .str d.diagnosis)]

/-- The itemized diagnosis line produced for a shaped finding. -/
def NFinding.line (f : NFinding) : String :=
  "- " ++ pyStr f.term ++ ": " ++ pyTitle f.status ++ " (Confidence " ++
  pyStr (.num (intToRat (findingConfPct f.toPyVal))) ++ "%) - " ++
  pyStr (pyOr f.radSummary (.str "No radiology summary provided."))

theorem findingLine_nf (f : NFinding) :
    findingLine (f.nf).toPyVal = some f.line := rfl

theorem normFindings_map (fs : List NFinding) :
    normFindings (fs.map NFinding.toPyVal) =
      some (fs.map (fun f => (NFinding.nf f).toPyVal)) := by
  induction fs with
  | nil => rfl
  | cons f fs ih =>
    rw [List.map_cons, List.map_cons]
    rw [show normFindings (f.toPyVal :: fs.map NFinding.toPyVal) =
      (match normFindingStep f.toPyVal with
        | Option.none => Option.none
        | some f1 =>
          match normFindings (fs.map NFinding.toPyVal) with
          | Option.none => Option.none
          | some rest => some (f1 :: rest)) from rfl]
    rw [normFindingStep_toPyVal, ih]

theorem normRecs_map (rs : List NRec) :
    normRecs (rs.map NRec.toPyVal) =
      some (rs.map (fun r => (NRec.nf r).toPyVal)) := by
  induction rs with
  | nil => rfl
  | cons r rs ih =>
    rw [List.map_cons, List.map_cons]
    rw [show normRecs (r.toPyVal :: rs.map NRec.toPyVal) =
      (match normRecStep r.toPyVal with
        | Option.none => Option.none
        | some r1 =>
          match normRecs (rs.map NRec.toPyVal) with
          | Option.none => Option.none
          | some rest => some (r1 :: rest)) from rfl]
    rw [normRecStep_toPyVal, ih]

theorem linesOf_map (fs : List NFinding) :
    linesOf (fs.map (fun f => (NFinding.nf f).toPyVal)) =
      some (fs.map NFinding.line) := by
  induction fs with
  | nil => rfl
  | cons f fs ih =>
    rw [List.map_cons, List.map_cons]
    rw [show linesOf ((f.nf).toPyVal :: fs.map (fun f => (NFinding.nf f).toPyVal)) =
      (match findingLine (f.nf).toPyVal with
        | Option.none => Option.none
        | some l =>
          match linesOf (fs.map (fun f => (NFinding.nf f).toPyVal)) with
          | Option.none => Option.none
          | some ls => some (l :: ls)) from rfl]
    rw [findingLine_nf, ih]

theorem cfrOf_toPyVal (d : NDiag) :
    cfrOf d.toPyVal = .list (d.findings.map NFinding.toPyVal) := by
  obtain ⟨p, m, imi, it, sy, oi, pfs, ext, fs, rs, urg, cs, prob, diag⟩ := d
  cases fs with
  | nil => rfl
  | cons f fs => rfl

theorem recsRawOf_toPyVal (d : NDiag) :
    recsRawOf d.toPyVal = .list (d.recs.map NRec.toPyVal) := by
  obtain ⟨p, m, imi, it, sy, oi, pfs, ext, fs, rs, urg, cs, prob, diag⟩ := d
  cases rs with
  | nil => rfl
  | cons r rs => rfl

/-- Effect of the confidence rule on an integer-valued normalized score. -/
def csNF (n : ℕ) : ℕ := if n = 1 then 100 else n

theorem normConfidence_int (p : ℤ) (h0 : 0 ≤ p) (h1 : p ≠ 1) :
    normConfidence (intToRat p) = p := by
  unfold normConfidence
  rw [intToRat_eq]
  by_cases hle : ((p : ℚ) ≤ 1)
  · have hp : p = 0 := by
      have hpp : p ≤ 1 := by exact_mod_cast hle
      omega
    subst hp
    rw [if_pos hle]
    have hq : qMul ((0:ℤ):ℚ) 100 = (((0:ℤ)):ℚ) := by
      rw [qMul_eq]
      push_cast
      ring
    rw [hq, pyRound_intCast]
    decide
  · rw [if_neg hle, pyRound_intCast]

theorem confScoreOf_toPyVal (d : NDiag) :
    confScoreOf d.toPyVal = Int.ofNat (csNF d.cs) := by
  unfold confScoreOf
  rw [show pyGet d.toPyVal "confidence_score" = .num (intToRat (Int.ofNat d.cs)) from rfl]
  rw [show isNum (PyVal.num (intToRat (Int.ofNat d.cs))) = true from rfl, if_pos rfl]
  rw [show numVal (PyVal.num (intToRat (Int.ofNat d.cs))) = intToRat (Int.ofNat d.cs) from rfl]
  unfold csNF
  by_cases h1 : d.cs = 1
  · rw [h1, if_pos rfl]
    decide
  · rw [if_neg h1]
    refine normConfidence_int _ (Int.ofNat_nonneg _) ?_
    intro hc
    apply h1
    exact Int.ofNat.inj hc

/-- The diagnosis sections produced for a shaped input. -/
def NDiag.nfSections (d : NDiag) : List String :=
  (if truthy (pyOr d.oi (.str d.diagnosis)) then
    ["**Overall Impression:** " ++ pyStr (pyOr d.oi (.str d.diagnosis))] else []) ++
  (if truthy (pyOr d.pfs PyVal.none) then
    ["**Patient-Friendly Summary:** " ++ pyStr (pyOr d.pfs PyVal.none)] else []) ++
  (if d.findings.isEmpty then [] else "**Pulmonary Findings:**" :: d.findings.map NFinding.line)

theorem findingSectionsOf_map (fs : List NFinding) :
    findingSectionsOf (fs.map (fun f => (NFinding.nf f).toPyVal)) =
      some (if fs.isEmpty then [] else "**Pulmonary Findings:**" :: fs.map NFinding.line) := by
  cases fs with
  | nil => rfl
  | cons f fs =>
    show (match linesOf ((f :: fs).map (fun f => (NFinding.nf f).toPyVal)) with
      | Option.none => Option.none
      | some ls => some ("**Pulmonary Findings:**" :: ls)) = _
    rw [linesOf_map]
    rfl

theorem sectionsOf_toPyVal (d : NDiag) :
    sectionsOf d.toPyVal
      (if d.findings.isEmpty then [] else "**Pulmonary Findings:**" :: d.findings.map NFinding.line)
    = d.nfSections := by
  have h1 : pyGet d.toPyVal "symptom_response" = PyVal.none := rfl
  have h2 : pyGet d.toPyVal "symptom_correlation" = PyVal.none := rfl
  have h3 : oiOf d.toPyVal = pyOr d.oi (.str d.diagnosis) := rfl
  have h4 : psOf d.toPyVal = pyOr d.pfs PyVal.none := rfl
  unfold sectionsOf NDiag.nfSections
  rw [h1, h2, h3, h4]
  simp only [show truthy PyVal.none = false from rfl, Bool.false_eq_true, if_false,
    List.nil_append, List.append_nil]

theorem truthy_pyOr_str (a : PyVal) {s : String} (h : s ≠ "") :
    truthy (pyOr a (.str s)) = true := by
  unfold pyOr
  split
  · assumption
  · simp [truthy, h]

theorem nfSections_cons (d : NDiag) (hd : d.diagnosis ≠ "") :
    ∃ rest, d.nfSections =
      ("**Overall Impression:** " ++ pyStr (pyOr d.oi (.str d.diagnosis))) :: rest := by
  unfold NDiag.nfSections
  rw [if_pos (truthy_pyOr_str _ hd)]
  exact ⟨_, rfl⟩

theorem append_left_ne_empty {s : String} (t : String) (h : s ≠ "") : s ++ t ≠ "" := by
  intro hc
  apply h
  apply str_length_zero
  have hl := congrArg String.length hc
  rw [String.length_append] at hl
  have h0 : String.length "" = 0 := rfl
  omega

theorem diagTextPy_toPyVal (d : NDiag) (hd : d.diagnosis ≠ "") :
    diagTextPy d.toPyVal
      (if d.findings.isEmpty then [] else "**Pulmonary Findings:**" :: d.findings.map NFinding.line)
    = .str (joinSep "\n" d.nfSections) := by
  unfold diagTextPy
  rw [sectionsOf_toPyVal]
  obtain ⟨rest, hr⟩ := nfSections_cons d hd
  rw [hr]
  rfl

/-- The normal form a shaped dict is mapped to by the whole normalizer. -/
def NDiag.nf (d : NDiag) : NDiag where
  provider := d.provider
  model := d.model
  imi := d.imi
  imageType := d.imageType
  symptoms := d.symptoms
  oi := pyOr d.oi (.str d.diagnosis)
  pfs := pyOr d.pfs PyVal.none
  extf := pyOr d.extf (.list [])
  findings := d.findings.map NFinding.nf
  recs := d.recs.map NRec.nf
  urg := d.urg
  cs := csNF d.cs
  prob := .num (intToRat (Int.ofNat d.cs))
  diagnosis := joinSep "\n" d.nfSections

theorem buildOutput_toPyVal (d : NDiag) (hd : d.diagnosis ≠ "") :
    buildOutput d.toPyVal (d.findings.map (fun f => (NFinding.nf f).toPyVal))
      (d.recs.map (fun r => (NRec.nf r).toPyVal))
      (if d.findings.isEmpty then [] else "**Pulmonary Findings:**" :: d.findings.map NFinding.line)
    = (d.nf).toPyVal := by
  unfold buildOutput
  rw [confScoreOf_toPyVal, diagTextPy_toPyVal d hd]
  show PyVal.dict _ = (d.nf).toPyVal
  unfold NDiag.nf NDiag.toPyVal
  simp only [List.map_map]
  rfl

/-- Normalizing a shaped dict succeeds and yields its normal form. -/
theorem pyNormalize_shape (d : NDiag) (hd : d.diagnosis ≠ "") :
    pyNormalize d.toPyVal = some (d.nf).toPyVal := by
  have hstep : pyNormalize d.toPyVal =
      (match iterElems (cfrOf d.toPyVal) with
        | Option.none => Option.none
        | some cfItems =>
          match normFindings cfItems with
          | Option.none => Option.none
          | some nfs =>
            match iterElems (recsRawOf d.toPyVal) with
            | Option.none => Option.none
            | some recItems =>
              match normRecs recItems with
              | Option.none => Option.none
              | some nrecs =>
                match findingSectionsOf nfs with
                | Option.none => Option.none
                | some secsF => some (buildOutput d.toPyVal nfs nrecs secsF)) := rfl
  rw [hstep]
  simp only [cfrOf_toPyVal, recsRawOf_toPyVal,
    show iterElems (PyVal.list (d.findings.map NFinding.toPyVal)) =
      some (d.findings.map NFinding.toPyVal) from rfl,
    show iterElems (PyVal.list (d.recs.map NRec.toPyVal)) =
      some (d.recs.map NRec.toPyVal) from rfl,
    normFindings_map, normRecs_map, findingSectionsOf_map]
  rw [buildOutput_toPyVal d hd]

/-! ### Stability lemmas for the second application -/

theorem pyOr_pos {a : PyVal} (b : PyVal) (h : truthy a = true) : pyOr a b = a := by
  unfold pyOr
  rw [if_pos h]

theorem pyOr_absorb (a b : PyVal) : pyOr (pyOr a b) b = pyOr a b := by
  by_cases h : truthy a = true
  · rw [pyOr_pos b h]
    exact pyOr_pos b h
  · have hb : pyOr a b = b := by
      unfold pyOr
      rw [if_neg h]
    rw [hb]
    unfold pyOr
    split <;> rfl

theorem normConfidence_nonneg (c : ℚ) : 0 ≤ normConfidence c := by
  unfold normConfidence
  split
  · exact le_max_left _ _
  · rename_i h
    push_neg at h
    exact pyRound_nonneg (le_of_lt (lt_trans zero_lt_one h))

theorem findingConfPct_nonneg (f : PyVal) : 0 ≤ findingConfPct f := by
  unfold findingConfPct
  split
  · exact normConfidence_nonneg _
  · norm_num

theorem findingConfPct_nf (f : NFinding) (hp : findingConfPct f.toPyVal ≠ 1) :
    findingConfPct (f.nf).toPyVal = findingConfPct f.toPyVal := by
  have h1 : findingConfPct (f.nf).toPyVal =
      normConfidence (intToRat (findingConfPct f.toPyVal)) := rfl
  rw [h1]
  exact normConfidence_int _ (findingConfPct_nonneg _) hp

theorem sevNF_idem (st sv : String) : sevNF st (sevNF st sv) = sevNF st sv := by
  unfold sevNF
  by_cases hc : ((st == "absent") && (pyLower sv == "none" || pyLower sv == "normal")) = true
  · rw [if_pos hc]
    have hst : (st == "absent") = true := by
      cases h1 : (st == "absent") with
      | false =>
        rw [h1] at hc
        simp at hc
      | true => rfl
    rw [show pyLower "normal" = "normal" from by decide, hst]
    simp
  · rw [if_neg hc, pyLower_idem, if_neg hc]

theorem nfFinding_idem (f : NFinding) (hp : findingConfPct f.toPyVal ≠ 1) :
    (f.nf).nf = f.nf := by
  refine NFinding.ext rfl rfl rfl rfl (sevNF_idem _ _) ?_ (pyOr_absorb _ _)
    (pyOr_absorb _ _) (pyOr_absorb _ _) ?_
  · show PyVal.num (intToRat (findingConfPct (f.nf).toPyVal)) =
      PyVal.num (intToRat (findingConfPct f.toPyVal))
    rw [findingConfPct_nf f hp]
  · show PyVal.list ([pyOr (pyOr f.plainSummary (.str "No patient explanation provided."))
        (.str "No patient explanation provided."),
      .str ("Status: " ++ pyTitle f.status)].filter (fun x => truthy x)) = _
    rw [pyOr_absorb]
    rfl

theorem NFinding.line_nf (f : NFinding) (hp : findingConfPct f.toPyVal ≠ 1) :
    (f.nf).line = f.line := by
  unfold NFinding.line
  rw [findingConfPct_nf f hp]
  rw [show (f.nf).radSummary = pyOr f.radSummary (.str "No radiology summary provided.")
    from rfl]
  rw [pyOr_absorb]
  rfl

theorem recPr_ne_empty (r : NRec) : recPr r ≠ "" := by
  obtain ⟨pri, c, t, tl, a, urg⟩ := r
  cases urg with
  | none =>
    show (if (pri != "") = true then pri else "routine") ≠ ""
    by_cases h : (pri != "") = true
    · rw [if_pos h]; exact bne_iff_ne.mp h
    · rw [if_neg h]; decide
  | some u =>
    show (if (u != "") = true then u
        else (if (pri != "") = true then pri else "routine")) ≠ ""
    by_cases hu : (u != "") = true
    · rw [if_pos hu]; exact bne_iff_ne.mp hu
    · rw [if_neg hu]
      by_cases h : (pri != "") = true
      · rw [if_pos h]; exact bne_iff_ne.mp h
      · rw [if_neg h]; decide

theorem recPr_nf (r : NRec) : pyUpper (recPr (r.nf)) = pyUpper (recPr r) := by
  obtain ⟨pri, c, t, tl, a, urg⟩ := r
  cases urg with
  | none =>
    have hne : pyUpper (recPr (⟨pri, c, t, tl, a, Option.none⟩ : NRec)) ≠ "" :=
      pyUpper_ne_empty (recPr_ne_empty _)
    show pyUpper
        (if (pyUpper (recPr (⟨pri, c, t, tl, a, Option.none⟩ : NRec)) != "") = true then
          pyUpper (recPr (⟨pri, c, t, tl, a, Option.none⟩ : NRec)) else "routine") = _
    rw [if_pos (bne_iff_ne.mpr hne), pyUpper_idem]
  | some u =>
    by_cases hu : (u != "") = true
    · show pyUpper (if (u != "") = true then u
          else (if (pyUpper (recPr (⟨pri, c, t, tl, a, some u⟩ : NRec)) != "") = true then
            pyUpper (recPr (⟨pri, c, t, tl, a, some u⟩ : NRec)) else "routine")) =
        pyUpper (if (u != "") = true then u
          else (if (pri != "") = true then pri else "routine"))
      rw [if_pos hu, if_pos hu]
    · have hne : pyUpper (recPr (⟨pri, c, t, tl, a, some u⟩ : NRec)) ≠ "" :=
        pyUpper_ne_empty (recPr_ne_empty _)
      show pyUpper (if (u != "") = true then u
          else (if (pyUpper (recPr (⟨pri, c, t, tl, a, some u⟩ : NRec)) != "") = true then
            pyUpper (recPr (⟨pri, c, t, tl, a, some u⟩ : NRec)) else "routine")) =
        pyUpper (if (u != "") = true then u
          else (if (pri != "") = true then pri else "routine"))
      rw [if_neg hu, if_neg hu, if_pos (bne_iff_ne.mpr hne), pyUpper_idem]
      show pyUpper (if (u != "") = true then u
          else (if (pri != "") = true then pri else "routine")) = _
      rw [if_neg hu]

theorem nfRec_idem (r : NRec) : (r.nf).nf = r.nf := by
  refine NRec.ext (recPr_nf r) (pyOr_absorb _ _) (pyOr_absorb _ _) (pyOr_absorb _ _) rfl rfl

theorem map_line_nf (fs : List NFinding)
    (hf : ∀ f ∈ fs, findingConfPct f.toPyVal ≠ 1) :
    (fs.map NFinding.nf).map NFinding.line = fs.map NFinding.line := by
  induction fs with
  | nil => rfl
  | cons f fs ih =>
    simp only [List.map_cons]
    rw [NFinding.line_nf f (hf f (List.mem_cons_self f fs)),
      ih (fun g hg => hf g (List.mem_cons_of_mem f hg))]

theorem map_nfinding_idem (fs : List NFinding)
    (hf : ∀ f ∈ fs, findingConfPct f.toPyVal ≠ 1) :
    (fs.map NFinding.nf).map NFinding.nf = fs.map NFinding.nf := by
  induction fs with
  | nil => rfl
  | cons f fs ih =>
    simp only [List.map_cons]
    rw [nfFinding_idem f (hf f (List.mem_cons_self f fs)),
      ih (fun g hg => hf g (List.mem_cons_of_mem f hg))]

theorem nfDiag_ne (d : NDiag) (hd : d.diagnosis ≠ "") :
    joinSep "\n" d.nfSections ≠ "" := by
  obtain ⟨rest, hr⟩ := nfSections_cons d hd
  rw [hr]
  exact joinSep_ne_empty (append_left_ne_empty _ (by decide)) rest

theorem nfSections_nf (d : NDiag) (hd : d.diagnosis ≠ "")
    (hf : ∀ f ∈ d.findings, findingConfPct f.toPyVal ≠ 1) :
    (d.nf).nfSections = d.nfSections := by
  show (if truthy (pyOr (pyOr d.oi (.str d.diagnosis))
        (.str (joinSep "\x0a" d.nfSections))) then
      ["**Overall Impression:** " ++ pyStr (pyOr (pyOr d.oi (.str d.diagnosis))
        (.str (joinSep "\x0a" d.nfSections)))] else []) ++
    (if truthy (pyOr (pyOr d.pfs PyVal.none) PyVal.none) then
      ["**Patient-Friendly Summary:** " ++
        pyStr (pyOr (pyOr d.pfs PyVal.none) PyVal.none)] else []) ++
    (if (d.findings.map NFinding.nf).isEmpty then []
      else "**Pulmonary Findings:**" :: (d.findings.map NFinding.nf).map NFinding.line)
    = d.nfSections
  rw [pyOr_pos _ (truthy_pyOr_str d.oi hd), pyOr_absorb, map_line_nf d.findings hf,
    show (d.findings.map NFinding.nf).isEmpty = d.findings.isEmpty from by
      cases d.findings <;> rfl]
  rfl

theorem nfDiag_idem (d : NDiag) (hd : d.diagnosis ≠ "") (hcs : d.cs ≠ 1)
    (hf : ∀ f ∈ d.findings, findingConfPct f.toPyVal ≠ 1) :
    (d.nf).nf = d.nf := by
  have hc : csNF d.cs = d.cs := by
    unfold csNF
    rw [if_neg hcs]
  refine NDiag.ext rfl rfl rfl rfl rfl ?_ (pyOr_absorb _ _) (pyOr_absorb _ _)
    (map_nfinding_idem d.findings hf) ?_ rfl ?_ ?_ ?_
  · show pyOr (pyOr d.oi (.str d.diagnosis)) (.str (joinSep "\x0a" d.nfSections))
      = pyOr d.oi (.str d.diagnosis)
    exact pyOr_pos _ (truthy_pyOr_str d.oi hd)
  · show (d.recs.map NRec.nf).map NRec.nf = d.recs.map NRec.nf
    rw [List.map_map]
    exact List.map_congr_left (fun r _ => nfRec_idem r)
  · show csNF (csNF d.cs) = csNF d.cs
    rw [hc]
    exact hc
  · show PyVal.num (intToRat (Int.ofNat (csNF d.cs)))
      = PyVal.num (intToRat (Int.ofNat d.cs))
    rw [hc]
  · show joinSep "\x0a" ((d.nf).nfSections) = joinSep "\x0a" d.nfSections
    rw [nfSections_nf d hd hf]

/-- An already-normalized payload whose confidence score is exactly 1. -/
def probeShapedDict : NDiag where
  provider := .str "groq"
  model := .str "llava"
  imi := .bool true
  imageType := .str "chest"
  symptoms := .str ""
  oi := PyVal.none
  pfs := PyVal.none
  extf := .list []
  findings := []
  recs := []
  urg := .str "routine"
  cs := 1
  prob := .num (intToRat 1)
  diagnosis := "No significant abnormalities detected."

/-- Observation of the `confidence_probability` slot of an optional dict. -/
def probOfOpt : Option PyVal → Option PyVal
  | some v => some (pyGet v "confidence_probability")
  | Option.none => Option.none

/-- C8: the normalizer is NOT idempotent as claimed: on an
already-normalized payload whose `confidence_score` is exactly `1`, a
second pass rescales the score (the `c <= 1` branch of line 598 fires
again) and changes `confidence_probability` from `1` to `100`. -/
theorem normalize_not_idempotent_cex :
    (pyNormalize probeShapedDict.toPyVal).bind pyNormalize
      ≠ pyNormalize probeShapedDict.toPyVal := by
  intro h
  have h2 := congrArg probOfOpt h
  rw [show probOfOpt ((pyNormalize probeShapedDict.toPyVal).bind pyNormalize)
      = some (.num (intToRat 100)) from rfl,
    show probOfOpt (pyNormalize probeShapedDict.toPyVal)
      = some (.num (intToRat 1)) from rfl] at h2
  simp only [Option.some.injEq, PyVal.num.injEq] at h2
  exact absurd h2 (by decide)

/-- C8 (amended): on an already-normalized payload — canonical output shape
with a non-empty diagnosis — whose overall `confidence_score` is not the
boundary value `1` and whose per-finding confidences do not normalize to
`1`, running `_normalize_vlm_response` a second time returns the first
result unchanged. -/
theorem normalize_idempotent_amended (d : NDiag) (hd : d.diagnosis ≠ "")
    (hcs : d.cs ≠ 1)
    (hf : ∀ f ∈ d.findings, findingConfPct f.toPyVal ≠ 1) :
    (pyNormalize d.toPyVal).bind pyNormalize = pyNormalize d.toPyVal := by
  rw [pyNormalize_shape d hd]
  show pyNormalize (d.nf).toPyVal = some (d.nf).toPyVal
  rw [pyNormalize_shape d.nf (nfDiag_ne d hd), nfDiag_idem d hd hcs hf]

/-- A concrete shaped finding with confidence `0.9`. -/
def witnessFinding : NFinding where
  term := .str "Consolidation"
  status := "present"
  category := .str "LUNGS"
  title := .str "Consolidation"
  severity := "moderate"
  confidence := .num (mkRat 9 10)
  radSummary := .str "RLL opacity"
  plainSummary := .str "A patch of lung looks denser than normal."
  descr := .str "RLL opacity"
  details := .list []

/-- A concrete shaped payload with confidence score 92 and one finding. -/
def witnessDiag : NDiag where
  provider := .str "groq"
  model := .str "llava"
  imi := .bool true
  imageType := .str "chest"
  symptoms := .str ""
  oi := .str "Consolidation noted"
  pfs := PyVal.none
  extf := .list []
  findings := [witnessFinding]
  recs := []
  urg := .str "routine"
  cs := 92
  prob := .num (mkRat 92 100)
  diagnosis := "Consolidation noted"

theorem normalize_idempotent_amended_witness :
    (pyNormalize witnessDiag.toPyVal).bind pyNormalize
      = pyNormalize witnessDiag.toPyVal :=
  normalize_idempotent_amended witnessDiag (by decide) (by decide)
    (by
      intro f hfm
      rw [show witnessDiag.findings = [witnessFinding] from rfl,
        List.mem_singleton] at hfm
      subst hfm
      decide)
